import Mathlib

/-!
Verification of the session relay engine of a realtime websocket relay
backend (`backend/main.py`, `backend/core/websocket_handler.py`,
`backend/core/session.py`, `backend/core/gemini_client.py`).

The Python source is shallowly embedded: each handler becomes a pure Lean
function from its inputs (session record, parsed message, environment
oracles such as "did this upstream send time out") to its outputs (updated
session record, list of messages sent to the client, list of payloads sent
to the upstream handle).  Datetimes are `Nat` timestamps; the upstream
handle's `send` calls are recorded rather than performed; exceptions that
the source catches and logs are modelled by the neutral outcome the
caller's `except` block produces.
-/

/-- A parsed JSON value, as produced by `json.loads` in
`handle_client_messages`.  Only the shapes the handler inspects are
distinguished; everything else is `jother`. -/
inductive JVal where
  | jstr (s : String)
  | jobj (fields : List (String × JVal))
  | jother

/-- Embeds the `SessionState` dataclass of `backend/core/session.py`.
The `genai_session` handle is kept outside the record (upstream sends are
recorded in an output list); `datetime` fields are `Nat` timestamps. -/
structure SessionState where
  is_receiving_response : Bool := false
  received_model_response : Bool := false
  client_interrupted : Bool := false
  created_at : Nat := 0
  last_activity : Nat := 0
  message_count : Nat := 0
  total_tokens : Nat := 0
  deriving Repr, DecidableEq

/-- A JSON message the relay sends to the client over the websocket
(`websocket.send(...)` calls in `backend/core/websocket_handler.py`).
`errorMsg` carries the `message` and `error_type` fields passed to
`send_error_message`. -/
inductive ClientMsg where
  | setupComplete
  | interruptedMsg (message : String)
  | turnComplete
  | toolCall (name args : String)
  | goAwayMsg (message : String)
  | audioOut (b64 : String)
  | textOut (t : String)
  | errorMsg (message errType : String)
  deriving Repr, DecidableEq

/-- A payload forwarded to the upstream handle (`session.genai_session`):
`send(input={"data":..,"mime_type":..}, end_of_turn=True)` for audio,
`send(input={..})` for image (no `end_of_turn` argument),
`send(input=text, end_of_turn=True)` for text, and
`send_tool_response(function_responses=..)` for tool responses. -/
inductive UpSend where
  | realtimeAudio (b64 mime : String) (endOfTurn : Bool)
  | imageSend (b64 mime : String)
  | textSend (t : String) (endOfTurn : Bool)
  | toolResponseSend (d : JVal)

/-- One inbound client websocket frame: either a string `json.loads`
rejects, or the parsed JSON value. -/
inductive Inbound where
  | malformed
  | parsed (v : JVal)

/- Constants from `backend/core/websocket_handler.py`. -/

def MAX_AUDIO_SIZE_BYTES : Nat := 10 * 1024 * 1024

def MAX_IMAGE_SIZE_BYTES : Nat := 5 * 1024 * 1024

def MAX_TEXT_LENGTH : Nat := 100000

def VALID_MESSAGE_TYPES : List String :=
  ["audio", "image", "text", "end", "tool_response", "interrupt"]

/-- First-match association-list lookup, the embedding of a Python `dict`
access on a parsed JSON object. -/
def lookupField : List (String × JVal) → String → Option JVal
  | [], _ => none
  | (k, v) :: rest, key => if k = key then some v else lookupField rest key

/-- Membership test for a key, embedding Python's `key in data`. -/
def hasField (fields : List (String × JVal)) (key : String) : Bool :=
  (lookupField fields key).isSome

/-- Embeds `validate_message_structure` of
`backend/core/websocket_handler.py`: the message must be a JSON object
with a recognized `type` tag, and payload-bearing types must carry a
`data` field. -/
def validate_message_structure : JVal → Bool × Option String
  | JVal.jobj fields =>
    match lookupField fields "type" with
    | none => (false, some "Message missing required 'type' field")
    | some tv =>
      match tv with
      | JVal.jstr t =>
        if VALID_MESSAGE_TYPES.contains t then
          if (["audio", "image", "text", "tool_response"].contains t)
              && !(hasField fields "data") then
            (false, some ("Message type '" ++ t ++ "' requires 'data' field"))
          else (true, none)
        else (false, some ("Invalid message type: " ++ t))
      | _ => (false, some "Invalid message type")
  | _ => (false, some "Message must be a JSON object")

/-- Embeds `data.get(key, "")` followed by uses that require a string:
a missing key yields the default `""`; a non-string value makes the
handler body raise (modelled as `none`, the caller's per-message `except`
then produces the neutral outcome). -/
def getStrField (fields : List (String × JVal)) (key : String) : Option String :=
  match lookupField fields key with
  | none => some ""
  | some (JVal.jstr s) => some s
  | some _ => none

/-- Embeds `handle_audio_input`.  `tmo` says whether the
`asyncio.wait_for(... send ...)` times out; on timeout the handler sends a
`timeout` error to the client and returns (the send did not complete). -/
def handle_audio_input (s : SessionState) (fields : List (String × JVal))
    (tmo : Bool) : SessionState × List ClientMsg × List UpSend :=
  match getStrField fields "data" with
  | none => (s, [], [])
  | some b64 =>
    if b64 = "" then (s, [], [])
    else if b64.length * 3 / 4 > MAX_AUDIO_SIZE_BYTES then
      (s, [ClientMsg.errorMsg "Audio data too large" "size_limit_exceeded"], [])
    else
      let s1 := if s.client_interrupted then { s with client_interrupted := false } else s
      if tmo then (s1, [ClientMsg.errorMsg "Request timeout" "timeout"], [])
      else (s1, [], [UpSend.realtimeAudio b64 "audio/pcm" true])

/-- Embeds `handle_image_input`.  A timeout of the image send re-raises
(`except Exception: ... raise`); the caller's per-message `except` catches
and logs it, so the outcome is neutral with no client message. -/
def handle_image_input (s : SessionState) (fields : List (String × JVal))
    (tmo : Bool) : SessionState × List ClientMsg × List UpSend :=
  match getStrField fields "data" with
  | none => (s, [], [])
  | some b64 =>
    if b64 = "" then (s, [], [])
    else if b64.length * 3 / 4 > MAX_IMAGE_SIZE_BYTES then
      (s, [ClientMsg.errorMsg "Image data too large" "size_limit_exceeded"], [])
    else if tmo then (s, [], [])
    else (s, [], [UpSend.imageSend b64 "image/jpeg"])

/-- Embeds `handle_text_input`.  As with images, a timeout re-raises and
is swallowed by the caller's per-message `except`. -/
def handle_text_input (s : SessionState) (fields : List (String × JVal))
    (tmo : Bool) : SessionState × List ClientMsg × List UpSend :=
  match getStrField fields "data" with
  | none => (s, [], [])
  | some t =>
    if t = "" then (s, [], [])
    else if t.length > MAX_TEXT_LENGTH then
      (s, [ClientMsg.errorMsg "Text too long" "size_limit_exceeded"], [])
    else if tmo then (s, [], [])
    else (s, [], [UpSend.textSend t true])

/-- Embeds `handle_tool_response`: `data.get("data", {})` is forwarded via
`send_tool_response`; a timeout re-raises and is swallowed upstream. -/
def handle_tool_response (s : SessionState) (fields : List (String × JVal))
    (tmo : Bool) : SessionState × List ClientMsg × List UpSend :=
  let d := (lookupField fields "data").getD (JVal.jobj [])
  if tmo then (s, [], [])
  else (s, [], [UpSend.toolResponseSend d])

/-- Embeds one iteration of the `async for` loop of
`handle_client_messages`: bump the activity timestamp and message counter,
parse, validate, and dispatch on the `type` tag.  A `json.loads` failure
or a handler exception is caught by the loop's per-message `except`
(logged only), so the lane always continues. -/
def client_message_step (s : SessionState) (now : Nat) (m : Inbound)
    (tmo : Bool) : SessionState × List ClientMsg × List UpSend :=
  let s0 := { s with last_activity := now, message_count := s.message_count + 1 }
  match m with
  | Inbound.malformed => (s0, [], [])
  | Inbound.parsed v =>
    match validate_message_structure v with
    | (false, err) =>
      (s0, [ClientMsg.errorMsg ("Invalid message: " ++ err.getD "") "invalid_message"], [])
    | (true, _) =>
      match v with
      | JVal.jobj fields =>
        match lookupField fields "type" with
        | some (JVal.jstr t) =>
          if t = "audio" then handle_audio_input s0 fields tmo
          else if t = "image" then handle_image_input s0 fields tmo
          else if t = "text" then handle_text_input s0 fields tmo
          else if t = "tool_response" then handle_tool_response s0 fields tmo
          else if t = "interrupt" then ({ s0 with client_interrupted := true }, [], [])
          else (s0, [], [])
        | _ => (s0, [], [])
      | _ => (s0, [], [])

/-- The bookkeeping the lane performs first for every inbound frame:
`update_session_activity` plus `session.message_count += 1`. -/
def touchCount (s : SessionState) (now : Nat) : SessionState :=
  { s with last_activity := now, message_count := s.message_count + 1 }

/-- Embeds the whole client→upstream lane of `handle_client_messages`: the
`async for` consumes every frame in order; no frame terminates the loop.
Each frame comes with its arrival time and a timeout oracle for the
upstream send it may perform. -/
def handle_client_messages (s : SessionState) :
    List (Nat × Inbound × Bool) → SessionState × List ClientMsg × List UpSend
  | [] => (s, [], [])
  | (now, m, tmo) :: rest =>
    let p := client_message_step s now m tmo
    let q := handle_client_messages p.1 rest
    (q.1, p.2.1 ++ q.2.1, p.2.2 ++ q.2.2)

/-- Convenience builder for an inbound audio frame. -/
def audioFrame (b64 : String) : Inbound :=
  Inbound.parsed (JVal.jobj [("type", JVal.jstr "audio"), ("data", JVal.jstr b64)])

/-- Convenience builder for an inbound image frame. -/
def imageFrame (b64 : String) : Inbound :=
  Inbound.parsed (JVal.jobj [("type", JVal.jstr "image"), ("data", JVal.jstr b64)])

/-- Convenience builder for an inbound text frame. -/
def textFrame (t : String) : Inbound :=
  Inbound.parsed (JVal.jobj [("type", JVal.jstr "text"), ("data", JVal.jstr t)])

/- == Upstream→client lane (`handle_gemini_responses`, `process_server_content`) == -/

/-- The base64 alphabet used by `base64.b64encode`. -/
def b64Chars : List Char :=
  ['A','B','C','D','E','F','G','H','I','J','K','L','M','N','O','P','Q','R','S','T','U','V','W','X','Y','Z',
   'a','b','c','d','e','f','g','h','i','j','k','l','m','n','o','p','q','r','s','t','u','v','w','x','y','z',
   '0','1','2','3','4','5','6','7','8','9','+','/']

/-- Sextet to base64 character. -/
def b64c (n : Nat) : Char := b64Chars.getD n 'A'

/-- RFC 4648 base64 of a byte list, embedding `base64.b64encode` applied
to the audio bytes of an inline part. -/
def b64Encode : List Nat → List Char
  | b1 :: b2 :: b3 :: rest =>
    let n := (b1 % 256) * 65536 + (b2 % 256) * 256 + (b3 % 256)
    b64c (n / 262144) :: b64c (n / 4096 % 64) :: b64c (n / 64 % 64) :: b64c (n % 64) ::
      b64Encode rest
  | [b1, b2] =>
    let n := (b1 % 256) * 65536 + (b2 % 256) * 256
    [b64c (n / 262144), b64c (n / 4096 % 64), b64c (n / 64 % 64), '=']
  | [b1] =>
    let n := (b1 % 256) * 65536
    [b64c (n / 262144), b64c (n / 4096 % 64), '=', '=']
  | [] => []

/-- One part of an upstream model turn: `inline_data` (raw audio bytes),
a text part, or a part with neither attribute set. -/
inductive TurnPart where
  | inline (bytes : List Nat)
  | textPart (t : String)
  | emptyPart
  deriving Repr, DecidableEq

/-- An upstream `server_content` event, as the tagged-variant view of the
attributes `process_server_content` probes: `interrupted`, `model_turn`
(with its parts) and `turn_complete`. -/
structure ServerContent where
  interrupted : Bool := false
  model_turn : Option (List TurnPart) := none
  turn_complete : Bool := false
  deriving Repr, DecidableEq

/-- Embeds the `for part in model_turn.parts` loop of
`process_server_content`: `ci` is the session's client-interrupt flag,
re-checked before each part (the `return` there is the second component).
An inline part is forwarded base64-encoded as an `audio` message, a
non-empty text part as a `text` message. -/
def sendTurnParts (ci : Bool) : List TurnPart → List ClientMsg × Bool
  | [] => ([], false)
  | p :: rest =>
    if ci then ([], true)
    else
      let m : List ClientMsg :=
        match p with
        | TurnPart.inline bytes => [ClientMsg.audioOut (String.mk (b64Encode bytes))]
        | TurnPart.textPart t => if t = "" then [] else [ClientMsg.textOut t]
        | TurnPart.emptyPart => []
      let r := sendTurnParts ci rest
      (m ++ r.1, r.2)

/-- Embeds `process_server_content`: `interrupted` is forwarded and clears
both flags; otherwise a set client-interrupt flag suppresses the whole
event; otherwise the turn parts are forwarded, and `turn_complete` (when
not skipped by the mid-loop `return`) is forwarded and clears both
flags. -/
def process_server_content (s : SessionState) (sc : ServerContent) :
    SessionState × List ClientMsg :=
  if sc.interrupted then
    ({ s with is_receiving_response := false, client_interrupted := false },
     [ClientMsg.interruptedMsg "Response interrupted"])
  else if s.client_interrupted then (s, [])
  else
    let step : SessionState × List ClientMsg × Bool :=
      match sc.model_turn with
      | none => (s, [], false)
      | some parts =>
        ({ s with is_receiving_response := true },
         (sendTurnParts s.client_interrupted parts).1,
         (sendTurnParts s.client_interrupted parts).2)
    if step.2.2 then (step.1, step.2.1)
    else if sc.turn_complete then
      ({ step.1 with is_receiving_response := false, client_interrupted := false },
       step.2.1 ++ [ClientMsg.turnComplete])
    else (step.1, step.2.1)

/-- One event yielded by `session.genai_session.receive()`, as the
tagged-variant view of the attributes `handle_gemini_responses` probes. -/
structure UpResponse where
  setup_complete : Bool := false
  server_content : Option ServerContent := none
  tool_call : Option (String × String) := none
  usage_metadata : Option Nat := none
  go_away : Bool := false
  deriving Repr, DecidableEq

/-- Embeds the body of the inner `async for` of `handle_gemini_responses`
for one event.  `setup_complete` forwards an acknowledgment and
`continue`s; otherwise `server_content`, `tool_call` and `usage_metadata`
are each handled in order, and `go_away` forwards a disconnect message
and `break`s out of the inner loop (the third component). -/
def processResponse (s : SessionState) (r : UpResponse) :
    SessionState × List ClientMsg × Bool :=
  if r.setup_complete then (s, [ClientMsg.setupComplete], false)
  else
    let sc : SessionState × List ClientMsg :=
      match r.server_content with
      | some c => process_server_content s c
      | none => (s, [])
    let toolMsgs : List ClientMsg :=
      match r.tool_call with
      | some nm => [ClientMsg.toolCall nm.1 nm.2]
      | none => []
    let s2 : SessionState :=
      match r.usage_metadata with
      | some n => { sc.1 with total_tokens := n }
      | none => sc.1
    if r.go_away then
      (s2, sc.2 ++ toolMsgs ++ [ClientMsg.goAwayMsg "Server closing session"], true)
    else (s2, sc.2 ++ toolMsgs, false)

/-- Embeds one full inner `async for` pass of `handle_gemini_responses`
over one wave of events delivered by a single `receive()` call; the
`break` on `go_away` abandons the rest of the wave. -/
def processWave : SessionState → List UpResponse → SessionState × List ClientMsg × Bool
  | s, [] => (s, [], false)
  | s, r :: rest =>
    let p := processResponse s r
    if p.2.2 then (p.1, p.2.1, true)
    else
      let q := processWave p.1 rest
      (q.1, p.2.1 ++ q.2.1, q.2.2)

/-- Embeds the outer `while True` of `handle_gemini_responses` over a
finite prefix of the waves the upstream delivers: every wave costs one
`receive()` invocation (counted in the third component), and the `break`
flag of the inner loop is not consulted by the `while True`, which simply
re-invokes `receive()`. -/
def handle_gemini_responses (s : SessionState) :
    List (List UpResponse) → SessionState × List ClientMsg × Nat
  | [] => (s, [], 0)
  | w :: ws =>
    let p := processWave s w
    let q := handle_gemini_responses p.1 ws
    (q.1, p.2.1 ++ q.2.1, q.2.2 + 1)

/- == Session registry (`backend/core/session.py`) == -/

/-- Hex-digit test for the character classes of the session-id regex
(`[0-9a-f]` compiled with `re.IGNORECASE`). -/
def isHexDigit (c : Char) : Bool :=
  ('0' ≤ c && c ≤ '9') || ('a' ≤ c && c ≤ 'f') || ('A' ≤ c && c ≤ 'F')

/-- Whether 36 characters are exactly one match of the UUID-v4 regex body
`[0-9a-f]{8}-[0-9a-f]{4}-4[0-9a-f]{3}-[89ab][0-9a-f]{3}-[0-9a-f]{12}`
under `re.IGNORECASE`. -/
def uuid4Core (cs : List Char) : Bool :=
  cs.length == 36 &&
  (List.range 36).all fun i =>
    let c := cs.getD i ' '
    if i == 8 || i == 13 || i == 18 || i == 23 then c == '-'
    else if i == 14 then c == '4'
    else if i == 19 then
      c == '8' || c == '9' || c == 'a' || c == 'b' || c == 'A' || c == 'B'
    else isHexDigit c

/-- Embeds `validate_session_id`: `uuid_pattern.match(session_id)` with a
pattern anchored by `^...$`.  Python's `$` matches at the end of the
string or just before a single newline at the end, so a trailing `"\n"`
after the UUID body is also accepted. -/
def validate_session_id (s : String) : Bool :=
  uuid4Core s.data ||
  (match s.data.getLast? with
   | some c => c == Char.ofNat 10 && uuid4Core s.data.dropLast
   | none => false)

/-- The spec's stated identifier format, for comparison with the source's
validator: the whole string is one match of the UUID-v4 pattern. -/
def matchesUUIDv4Pattern (s : String) : Bool := uuid4Core s.data

/-- The registry `active_sessions`, an insertion-ordered map modelled as
an association list with unique keys. -/
abbrev Registry := List (String × SessionState)

/-- First-match lookup, embedding `active_sessions.get(id)`. -/
def regGet : Registry → String → Option SessionState
  | [], _ => none
  | (k, v) :: rest, id => if k = id then some v else regGet rest id

/-- Embeds `active_sessions[id] = session`: replace the entry in place if
the key exists, else append. -/
def regInsert : Registry → String → SessionState → Registry
  | [], id, v => [(id, v)]
  | (k, w) :: rest, id, v =>
    if k = id then (id, v) :: rest else (k, w) :: regInsert rest id v

/-- The minimum `last_activity` over the registry, embedding the value
selected by `min(active_sessions.keys(), key=lambda k: ...last_activity)`. -/
def minActivity : Registry → Option Nat
  | [] => none
  | e :: rest =>
    match minActivity rest with
    | none => some e.2.last_activity
    | some m => some (Nat.min e.2.last_activity m)

/-- Removes the first entry whose `last_activity` equals `m`.  Python's
`min` returns the first key attaining the minimum and `del` removes it;
with unique keys this is that entry. -/
def eraseFirstWithActivity : Registry → Nat → Registry
  | [], _ => []
  | e :: rest, m =>
    if e.2.last_activity = m then rest else e :: eraseFirstWithActivity rest m

/-- Embeds the capacity branch of `create_session`: remove the
least-recently-active entry. -/
def evictOldest (r : Registry) : Registry :=
  match minActivity r with
  | none => r
  | some m => eraseFirstWithActivity r m

/-- `MAX_SESSIONS` of `backend/core/session.py`. -/
def MAX_SESSIONS : Nat := 1000

/-- Embeds `create_session`: an id failing `validate_session_id` raises
`ValueError` before any registry mutation; otherwise, at capacity the
oldest entry is evicted, then the fresh session is stored under the id. -/
def create_session (r : Registry) (id : String) (fresh : SessionState) :
    Registry × Except String SessionState :=
  if validate_session_id id then
    let r1 := if MAX_SESSIONS ≤ r.length then evictOldest r else r
    (regInsert r1 id fresh, Except.ok fresh)
  else (r, Except.error "Invalid session ID format")

/-- Embeds `remove_session`: delete the entry if present. -/
def remove_session : Registry → String → Registry
  | [], _ => []
  | (k, v) :: rest, id =>
    if k = id then rest else (k, v) :: remove_session rest id

/- == Admission rate limiter (`backend/main.py`) == -/

/-- `RATE_LIMIT_WINDOW_SECONDS` of `backend/main.py`. -/
def RATE_LIMIT_WINDOW_SECONDS : Nat := 60

/-- `MAX_CONNECTIONS_PER_MINUTE` of `backend/main.py`. -/
def MAX_CONNECTIONS_PER_MINUTE : Nat := 10

/-- Embeds `check_rate_limit` acting on one IP's admission record
`connection_attempts[ip]`: prune timestamps outside the window, reject if
the pruned count is at or above the threshold, and append the current
attempt only on the accept path. -/
def check_rate_limit (prior : List Nat) (now : Nat) : Bool × List Nat :=
  let recent := prior.filter fun t => now - t < RATE_LIMIT_WINDOW_SECONDS
  if MAX_CONNECTIONS_PER_MINUTE ≤ recent.length then (false, recent)
  else (true, recent ++ [now])

/- == Upstream session factory (`backend/core/gemini_client.py`) == -/

/-- `MAX_RETRIES` of `backend/core/gemini_client.py`. -/
def MAX_RETRIES : Nat := 3

/-- `RETRY_DELAY_SECONDS` of `backend/core/gemini_client.py`. -/
def RETRY_DELAY_SECONDS : Nat := 1

/-- `RETRY_BACKOFF_MULTIPLIER` of `backend/core/gemini_client.py`. -/
def RETRY_BACKOFF_MULTIPLIER : Nat := 2

/-- Embeds `validate_model_name`: membership in the fixed allow-list. -/
def validate_model_name (m : String) : Bool :=
  (["models/gemini-2.5-flash-native-audio-preview-09-2025",
    "models/gemini-2.0-flash-exp",
    "models/gemini-exp-1206",
    "models/gemini-2.0-flash"] : List String).contains m

/-- Embeds the `for attempt in range(1, MAX_RETRIES + 1)` loop of
`create_gemini_session` over the remaining attempt numbers.  Each attempt
first raises (inside the `try`) if `validate_model_name` fails, then
performs the network connect (its success given by the oracle
`connectOk`); any exception is caught alike, and if further attempts
remain the loop sleeps `delay` seconds (plus a random jitter of at most
0.5 s, not modelled) and doubles `delay`.  Results: outcome, number of
attempts made, base sleep delays between attempts. -/
def cgsAttempts (name : String) (connectOk : Nat → Bool) :
    List Nat → Nat → Except String Unit × Nat × List Nat
  | [], _ => (Except.error "Failed to create Gemini Live session after retries", 0, [])
  | a :: restA, delay =>
    if validate_model_name name && connectOk a then (Except.ok (), 1, [])
    else
      match restA with
      | [] => (Except.error "Failed to create Gemini Live session after retries", 1, [])
      | _ :: _ =>
        let r := cgsAttempts name connectOk restA (delay * RETRY_BACKOFF_MULTIPLIER)
        (r.1, r.2.1 + 1, delay :: r.2.2)

/-- Embeds `create_gemini_session`: run the attempts `1..MAX_RETRIES`
starting from the base delay. -/
def create_gemini_session (name : String) (connectOk : Nat → Bool) :
    Except String Unit × Nat × List Nat :=
  cgsAttempts name connectOk ((List.range MAX_RETRIES).map fun a => a + 1)
    RETRY_DELAY_SECONDS

/- == Concrete instances used by witnesses and counterexamples == -/

/-- A default-initialized session record, as built by `SessionState()`. -/
def freshSession : SessionState := {}

/-- A session record whose client-interrupt and receiving-response flags
are set, as after a client `interrupt` frame mid-response. -/
def interruptedSession : SessionState :=
  { client_interrupted := true, is_receiving_response := true }

/-- A content event carrying only `turn_complete=True`. -/
def turnCompleteContent : ServerContent := { turn_complete := true }

/-- An upstream event carrying only `go_away`. -/
def goAwayResponse : UpResponse := { go_away := true }

/-- An upstream event carrying only `setup_complete`. -/
def setupResponse : UpResponse := { setup_complete := true }

/-- A canonical UUID-v4 string. -/
def uuidGood : String := "550e8400-e29b-41d4-a716-446655440000"

/-- The same UUID-v4 string with one trailing newline: not a UUID, yet
accepted by the source's `^...$`-anchored `re.match`. -/
def uuidTrailingNl : String := "550e8400-e29b-41d4-a716-446655440000\n"

/-- A registry filled to `MAX_SESSIONS` with distinct keys and strictly
increasing activity timestamps. -/
def fullRegistry : Registry :=
  (List.range MAX_SESSIONS).map fun i => (Nat.repr i, { last_activity := i })

/-- A base64 audio payload whose decoded-size estimate exceeds
`MAX_AUDIO_SIZE_BYTES` (13981015 * 3 / 4 = 10485761 > 10 MiB). -/
def oversizedAudioB64 : String := String.mk (List.replicate 13981015 'a')

/- == Helper lemmas == -/

/-- With the client-interrupt flag clear, the per-part loop of
`process_server_content` never takes its mid-loop early return. -/
theorem sendTurnParts_false_no_early (ps : List TurnPart) :
    (sendTurnParts false ps).2 = false := by
  induction ps with
  | nil => rfl
  | cons p rest ih => simp [sendTurnParts, ih]

/-- The outer `while True` of `handle_gemini_responses` makes exactly one
`receive()` invocation per delivered wave, whatever the events are. -/
theorem handle_gemini_responses_count (ws : List (List UpResponse)) :
    ∀ s : SessionState, (handle_gemini_responses s ws).2.2 = ws.length := by
  induction ws with
  | nil => intro s; rfl
  | cons w rest ih => intro s; simp [handle_gemini_responses, ih]

/-- Inserting a key makes it retrievable with the inserted value. -/
theorem regGet_regInsert_self (r : Registry) (id : String) (v : SessionState) :
    regGet (regInsert r id v) id = some v := by
  induction r with
  | nil => simp [regInsert, regGet]
  | cons e rest ih =>
    by_cases h : e.1 = id
    · simp [regInsert, h, regGet]
    · simp [regInsert, h, regGet, ih]

/-- `regInsert` grows the registry by at most one entry. -/
theorem regInsert_length_le : ∀ (r : Registry) (id : String) (v : SessionState),
    (regInsert r id v).length ≤ r.length + 1
  | [], _, _ => by simp [regInsert]
  | (k, w) :: rest, id, v => by
    by_cases h : k = id
    · simp [regInsert, h]
    · have := regInsert_length_le rest id v
      simp [regInsert, h]
      omega

/-- A nonempty registry has a minimum activity value. -/
theorem minActivity_isSome (r : Registry) (h : r ≠ []) :
    ∃ m, minActivity r = some m := by
  cases r with
  | nil => exact absurd rfl h
  | cons e rest =>
    cases hm : minActivity rest with
    | none => exact ⟨e.2.last_activity, by simp [minActivity, hm]⟩
    | some m => exact ⟨Nat.min e.2.last_activity m, by simp [minActivity, hm]⟩

/-- The minimum activity value is attained by some entry. -/
theorem minActivity_mem : ∀ (r : Registry) (m : Nat), minActivity r = some m →
    ∃ e ∈ r, e.2.last_activity = m
  | [], m, h => by simp [minActivity] at h
  | e :: rest, m, h => by
    cases hm : minActivity rest with
    | none =>
      rw [minActivity, hm] at h
      simp only [Option.some.injEq] at h
      exact ⟨e, List.mem_cons_self e rest, h⟩
    | some m2 =>
      rw [minActivity, hm] at h
      simp only [Option.some.injEq] at h
      rcases Nat.le_total e.2.last_activity m2 with hle | hle
      · refine ⟨e, List.mem_cons_self e rest, ?_⟩
        rw [← h]
        exact (Nat.min_eq_left hle).symm
      · obtain ⟨x, hx, hxm⟩ := minActivity_mem rest m2 hm
        refine ⟨x, List.mem_cons_of_mem e hx, ?_⟩
        rw [hxm, ← h]
        exact (Nat.min_eq_right hle).symm

/-- The minimum activity value bounds every entry from below. -/
theorem minActivity_le : ∀ (r : Registry) (m : Nat), minActivity r = some m →
    ∀ e ∈ r, m ≤ e.2.last_activity
  | [], m, h => by simp [minActivity] at h
  | e :: rest, m, h => by
    intro x hx
    cases hm : minActivity rest with
    | none =>
      rw [minActivity, hm] at h
      simp only [Option.some.injEq] at h
      have hrest : rest = [] := by
        cases rest with
        | nil => rfl
        | cons y ys =>
          rw [minActivity] at hm
          cases h2 : minActivity ys <;> rw [h2] at hm <;> simp at hm
      subst hrest
      have hxe : x = e := by simpa using hx
      subst hxe
      omega
    | some m2 =>
      rw [minActivity, hm] at h
      simp only [Option.some.injEq] at h
      rcases List.mem_cons.mp hx with hxe | hxr
      · subst hxe
        rw [← h]
        exact Nat.min_le_left _ _
      · have hr := minActivity_le rest m2 hm x hxr
        rw [← h]
        exact le_trans (Nat.min_le_right _ _) hr

/-- Removing the first entry at an attained activity value shrinks the
registry by exactly one. -/
theorem eraseFirstWithActivity_length : ∀ (r : Registry) (m : Nat),
    (∃ e ∈ r, e.2.last_activity = m) →
    (eraseFirstWithActivity r m).length + 1 = r.length
  | [], m, h => by simp at h
  | e :: rest, m, h => by
    by_cases he : e.2.last_activity = m
    · simp [eraseFirstWithActivity, he]
    · obtain ⟨x, hx, hxm⟩ := h
      rcases List.mem_cons.mp hx with hxe | hxr
      · subst hxe; exact absurd hxm he
      · have := eraseFirstWithActivity_length rest m ⟨x, hxr, hxm⟩
        simp [eraseFirstWithActivity, he]
        omega

/-- Eviction only removes entries: the result is a sublist. -/
theorem eraseFirstWithActivity_sublist : ∀ (r : Registry) (m : Nat),
    List.Sublist (eraseFirstWithActivity r m) r
  | [], m => by simp [eraseFirstWithActivity]
  | e :: rest, m => by
    by_cases he : e.2.last_activity = m
    · have heq : eraseFirstWithActivity (e :: rest) m = rest := by
        simp [eraseFirstWithActivity, he]
      rw [heq]
      exact List.sublist_cons_self e rest
    · have heq : eraseFirstWithActivity (e :: rest) m =
          e :: eraseFirstWithActivity rest m := by
        simp [eraseFirstWithActivity, he]
      rw [heq]
      exact List.Sublist.cons₂ e (eraseFirstWithActivity_sublist rest m)

/-- Keys of an insertion are the new key plus old keys. -/
theorem mem_keys_regInsert : ∀ (r : Registry) (id x : String) (v : SessionState),
    x ∈ (regInsert r id v).map Prod.fst → x = id ∨ x ∈ r.map Prod.fst
  | [], id, x, v, hx => by
    simp [regInsert] at hx
    exact Or.inl hx
  | (k, w) :: rest, id, x, v, hx => by
    have heq : regInsert ((k, w) :: rest) id v =
        if k = id then (id, v) :: rest else (k, w) :: regInsert rest id v := rfl
    rw [heq] at hx
    by_cases h : k = id
    · rw [if_pos h] at hx
      simp only [List.map_cons, List.mem_cons] at hx ⊢
      tauto
    · rw [if_neg h] at hx
      simp only [List.map_cons, List.mem_cons] at hx ⊢
      rcases hx with hx | hx
      · tauto
      · rcases mem_keys_regInsert rest id x v hx with h2 | h2 <;> tauto

/-- Insertion preserves key uniqueness. -/
theorem regInsert_keys_nodup : ∀ (r : Registry) (id : String) (v : SessionState),
    (r.map Prod.fst).Nodup → ((regInsert r id v).map Prod.fst).Nodup
  | [], id, v, _ => by simp [regInsert]
  | (k, w) :: rest, id, v, hnd => by
    have heq : regInsert ((k, w) :: rest) id v =
        if k = id then (id, v) :: rest else (k, w) :: regInsert rest id v := rfl
    rw [heq]
    simp only [List.map_cons, List.nodup_cons] at hnd
    by_cases h : k = id
    · rw [if_pos h]
      simp only [List.map_cons, List.nodup_cons]
      subst h
      exact hnd
    · rw [if_neg h]
      simp only [List.map_cons, List.nodup_cons]
      refine ⟨?_, regInsert_keys_nodup rest id v hnd.2⟩
      intro hk
      rcases mem_keys_regInsert rest id k v hk with h2 | h2
      · exact h h2
      · exact hnd.1 h2

/-- An absent key is not retrievable. -/
theorem regGet_none_of_not_mem : ∀ (r : Registry) (id : String),
    id ∉ r.map Prod.fst → regGet r id = none
  | [], id, _ => rfl
  | (k, w) :: rest, id, h => by
    simp only [List.map_cons, List.mem_cons] at h
    push_neg at h
    have heq : regGet ((k, w) :: rest) id =
        if k = id then some w else regGet rest id := rfl
    rw [heq, if_neg (fun hk => h.1 hk.symm)]
    exact regGet_none_of_not_mem rest id h.2

/-- With unique keys, a removed session is no longer retrievable. -/
theorem regGet_remove_session : ∀ (r : Registry) (id : String),
    (r.map Prod.fst).Nodup → regGet (remove_session r id) id = none
  | [], id, _ => rfl
  | (k, w) :: rest, id, hnd => by
    simp only [List.map_cons, List.nodup_cons] at hnd
    have heq : remove_session ((k, w) :: rest) id =
        if k = id then rest else (k, w) :: remove_session rest id := rfl
    rw [heq]
    by_cases h : k = id
    · rw [if_pos h]
      subst h
      exact regGet_none_of_not_mem rest k hnd.1
    · rw [if_neg h]
      have heq2 : regGet ((k, w) :: remove_session rest id) id =
          if k = id then some w else regGet (remove_session rest id) id := rfl
      rw [heq2, if_neg h]
      exact regGet_remove_session rest id hnd.2

/- == Claim theorems == -/

/-- Claim C1, counterexample: a content event with `turn_complete=true`
arriving while the client-interrupt flag is set is dropped whole by
`process_server_content` — no `turn_complete` notification is forwarded
to the client and neither the receiving-response flag nor the
client-interrupt flag is cleared — contradicting "regardless of whether
the client-interrupt flag was set when the event arrived". -/
theorem c1_counterexample :
    process_server_content interruptedSession turnCompleteContent =
      (interruptedSession, []) ∧
    interruptedSession.client_interrupted = true ∧
    interruptedSession.is_receiving_response = true :=
  ⟨rfl, rfl, rfl⟩

/-- Claim C1 (amended): for every upstream content event with
`turn_complete=true` and `interrupted` unset, if the client-interrupt
flag is clear when the event arrives the relay forwards a turn-complete
notification (the event's last message) and clears the receiving-response
and client-interrupt flags; if the client-interrupt flag is set, the
event is dropped entirely: nothing is forwarded and the session record —
including both flags — is unchanged. -/
theorem c1_turn_complete_amended (s : SessionState) (sc : ServerContent)
    (ht : sc.turn_complete = true) (hi : sc.interrupted = false) :
    (s.client_interrupted = false →
      (process_server_content s sc).1.is_receiving_response = false ∧
      (process_server_content s sc).1.client_interrupted = false ∧
      (process_server_content s sc).2.getLast? = some ClientMsg.turnComplete) ∧
    (s.client_interrupted = true → process_server_content s sc = (s, [])) := by
  constructor
  · intro hci
    cases hm : sc.model_turn with
    | none =>
      simp [process_server_content, hi, hci, ht, hm]
    | some parts =>
      simp [process_server_content, hi, hci, ht, hm, sendTurnParts_false_no_early,
        List.getLast?_append_cons]
  · intro hci
    simp [process_server_content, hi, hci]

/-- Claim C1 witness: at a concrete state with the flag clear and a
concrete `turn_complete` event, the amended theorem applies. -/
theorem c1_amended_witness :
    turnCompleteContent.turn_complete = true ∧
    turnCompleteContent.interrupted = false ∧
    freshSession.client_interrupted = false ∧
    (process_server_content freshSession turnCompleteContent).2.getLast? =
      some ClientMsg.turnComplete :=
  ⟨rfl, rfl, rfl,
   ((c1_turn_complete_amended freshSession turnCompleteContent rfl rfl).1 rfl).2.2⟩

/-- Claim C2, counterexample: after a wave consisting of a `go_away`
event, the `break` exits only the inner `async for`; the `while True`
re-invokes `receive()`, so a second wave is both requested (2 receive
calls, not 1) and processed (its `setup_complete` is forwarded after the
`go_away` notification) — contradicting "the lane's loop terminates: no
further upstream receive call is made". -/
theorem c2_counterexample :
    handle_gemini_responses freshSession [[goAwayResponse], [setupResponse]] =
      (freshSession,
       [ClientMsg.goAwayMsg "Server closing session", ClientMsg.setupComplete], 2) ∧
    (handle_gemini_responses freshSession [[goAwayResponse], [setupResponse]]).2.2 ≠ 1 :=
  ⟨rfl, by decide⟩

/-- Claim C2 (amended): a `go_away` event (on a response not also tagged
`setup_complete`) forwards a disconnect notification to the client — the
last message of that response — and aborts only the remainder of the
current wave; the outer `while True` keeps re-invoking `receive()`: the
lane makes exactly one receive call per delivered wave, so the lane's
loop does not terminate after `go_away`. -/
theorem c2_go_away_amended (s : SessionState) (r : UpResponse)
    (rest : List UpResponse) (ws : List (List UpResponse))
    (hs : r.setup_complete = false) (hg : r.go_away = true) :
    processWave s (r :: rest) =
      ((processResponse s r).1, (processResponse s r).2.1, true) ∧
    (processResponse s r).2.1.getLast? =
      some (ClientMsg.goAwayMsg "Server closing session") ∧
    (handle_gemini_responses s ws).2.2 = ws.length := by
  have hbrk : (processResponse s r).2.2 = true := by
    simp [processResponse, hs, hg]
  refine ⟨?_, ?_, handle_gemini_responses_count ws s⟩
  · simp [processWave, hbrk]
  · simp [processResponse, hs, hg, List.getLast?_append_cons]

/-- Claim C2 witness: the amended theorem applied to a concrete `go_away`
response and a concrete pair of waves. -/
theorem c2_amended_witness :
    goAwayResponse.setup_complete = false ∧ goAwayResponse.go_away = true ∧
    (handle_gemini_responses freshSession [[goAwayResponse], [setupResponse]]).2.2 =
      [[goAwayResponse], [setupResponse]].length :=
  ⟨rfl, rfl,
   (c2_go_away_amended freshSession goAwayResponse []
      [[goAwayResponse], [setupResponse]] rfl rfl).2.2⟩

/-- Claim C3, counterexample: with ten in-window timestamps recorded for
an IP, `check_rate_limit` rejects the eleventh attempt and returns the
record unchanged (still ten timestamps): the rejected attempt is NOT
appended, contradicting "rejection does not skip the recording side
effect". -/
theorem c3_counterexample :
    check_rate_limit (List.replicate 10 0) 0 = (false, List.replicate 10 0) ∧
    (check_rate_limit (List.replicate 10 0) 0).2.length ≠ 10 + 1 := by
  constructor
  · rfl
  · decide

/-- Claim C3 (amended): `check_rate_limit` always prunes the IP's record
to the in-window timestamps, but appends the current attempt only when it
accepts (pruned count below the threshold); on rejection (pruned count at
or above the threshold) the record is exactly the pruned list — the
attempt is not recorded. -/
theorem c3_rate_limit_amended (prior : List Nat) (now : Nat) :
    ((check_rate_limit prior now).1 = true →
      (check_rate_limit prior now).2 =
        (prior.filter fun t => now - t < RATE_LIMIT_WINDOW_SECONDS) ++ [now] ∧
      (prior.filter fun t => now - t < RATE_LIMIT_WINDOW_SECONDS).length <
        MAX_CONNECTIONS_PER_MINUTE) ∧
    ((check_rate_limit prior now).1 = false →
      (check_rate_limit prior now).2 =
        prior.filter (fun t => now - t < RATE_LIMIT_WINDOW_SECONDS) ∧
      MAX_CONNECTIONS_PER_MINUTE ≤
        (prior.filter fun t => now - t < RATE_LIMIT_WINDOW_SECONDS).length) := by
  by_cases h : MAX_CONNECTIONS_PER_MINUTE ≤
      (prior.filter fun t => now - t < RATE_LIMIT_WINDOW_SECONDS).length
  · constructor
    · intro hacc
      simp [check_rate_limit, h] at hacc
    · intro _
      exact ⟨by simp [check_rate_limit, h], h⟩
  · constructor
    · intro _
      exact ⟨by simp [check_rate_limit, h], by omega⟩
    · intro hrej
      simp [check_rate_limit, h] at hrej

/-- Claim C3 witness: the amended theorem applied to an empty record,
where the attempt is accepted and appended. -/
theorem c3_amended_witness :
    (check_rate_limit [] 5).1 = true ∧ (check_rate_limit [] 5).2 = [5] :=
  ⟨rfl, ((c3_rate_limit_amended [] 5).1 rfl).1⟩

/-- Claim C4, counterexample: an unparseable frame followed by a valid
text frame.  The `json.loads` failure is caught by the per-message
`except` and only logged: the client receives no error message at all
(zero, not "exactly one"), while the lane does continue (the following
text frame is forwarded upstream). -/
theorem c4_counterexample :
    handle_client_messages freshSession
        [(4, Inbound.malformed, false), (5, textFrame "hi", false)] =
      ({ freshSession with last_activity := 5, message_count := 2 },
       [], [UpSend.textSend "hi" true]) :=
  rfl

/-- Claim C4 (amended): an inbound message that is not parseable as JSON
produces NO outbound message at all — in particular no error-typed
message — and no upstream send; only the activity timestamp and the
message counter change, and the lane continues consuming subsequent
messages unchanged. -/
theorem c4_malformed_amended (s : SessionState) (now : Nat) (tmo : Bool)
    (rest : List (Nat × Inbound × Bool)) :
    client_message_step s now Inbound.malformed tmo =
      ({ s with last_activity := now, message_count := s.message_count + 1 }, [], []) ∧
    handle_client_messages s ((now, Inbound.malformed, tmo) :: rest) =
      (handle_client_messages
        { s with last_activity := now, message_count := s.message_count + 1 } rest) := by
  constructor
  · rfl
  · simp [handle_client_messages, client_message_step]

/-- Claim C5, counterexample: a text frame whose upstream send times out.
Only the audio handler has a `TimeoutError` branch; `handle_text_input`
re-raises, the per-message `except` swallows it, and the client receives
no message at all — in particular no `timeout` error — contradicting "for
each of the payload-bearing input types audio, image, and text ... the
client receives a user-visible error message with error_type timeout". -/
theorem c5_counterexample :
    client_message_step freshSession 3 (textFrame "hi") true =
      (touchCount freshSession 3, [], []) ∧
    (client_message_step freshSession 3 (textFrame "hi") true).2.1 = [] :=
  ⟨rfl, rfl⟩

/-- Claim C5 (amended): when the per-send timeout expires, only the audio
type produces the user-visible `timeout` error (one error message, no
completed upstream send, interrupt flag still reset); for image and text
the timeout re-raises and is swallowed by the lane's per-message handler,
so the client receives nothing.  In all three cases the lane is not
terminated: the step completes with only the bumped counters. -/
theorem c5_timeout_amended (s : SessionState) (now : Nat) (a i t : String)
    (hane : a ≠ "") (hasz : ¬ a.length * 3 / 4 > MAX_AUDIO_SIZE_BYTES)
    (hine : i ≠ "") (hisz : ¬ i.length * 3 / 4 > MAX_IMAGE_SIZE_BYTES)
    (htne : t ≠ "") (htsz : ¬ t.length > MAX_TEXT_LENGTH) :
    client_message_step s now (audioFrame a) true =
      ({ touchCount s now with client_interrupted := false },
       [ClientMsg.errorMsg "Request timeout" "timeout"], []) ∧
    client_message_step s now (imageFrame i) true = (touchCount s now, [], []) ∧
    client_message_step s now (textFrame t) true = (touchCount s now, [], []) := by
  refine ⟨?_, ?_, ?_⟩
  · have hbody : client_message_step s now (audioFrame a) true =
        (if a = "" then (touchCount s now, [], [])
         else if a.length * 3 / 4 > MAX_AUDIO_SIZE_BYTES then
          (touchCount s now,
           [ClientMsg.errorMsg "Audio data too large" "size_limit_exceeded"], [])
         else
          ((if (touchCount s now).client_interrupted
            then { touchCount s now with client_interrupted := false }
            else touchCount s now),
           [ClientMsg.errorMsg "Request timeout" "timeout"], [])) := rfl
    rw [hbody, if_neg hane, if_neg hasz]
    by_cases hc : s.client_interrupted
    · simp [touchCount, hc]
    · have hcf : (touchCount s now).client_interrupted = false := by
        simp [touchCount]
        simpa using hc
      rw [if_neg (by simp [hcf])]
      cases s
      simp_all [touchCount]
  · have hbody : client_message_step s now (imageFrame i) true =
        (if i = "" then (touchCount s now, [], [])
         else if i.length * 3 / 4 > MAX_IMAGE_SIZE_BYTES then
          (touchCount s now,
           [ClientMsg.errorMsg "Image data too large" "size_limit_exceeded"], [])
         else (touchCount s now, [], [])) := rfl
    rw [hbody, if_neg hine, if_neg hisz]
  · have hbody : client_message_step s now (textFrame t) true =
        (if t = "" then (touchCount s now, [], [])
         else if t.length > MAX_TEXT_LENGTH then
          (touchCount s now,
           [ClientMsg.errorMsg "Text too long" "size_limit_exceeded"], [])
         else (touchCount s now, [], [])) := rfl
    rw [hbody, if_neg htne, if_neg htsz]

/-- Claim C5 witness: the amended theorem applied to concrete small
payloads that pass the size checks. -/
theorem c5_amended_witness :
    ("QUJD" : String) ≠ "" ∧
    client_message_step freshSession 9 (audioFrame "QUJD") true =
      ({ touchCount freshSession 9 with client_interrupted := false },
       [ClientMsg.errorMsg "Request timeout" "timeout"], []) :=
  ⟨by decide,
   (c5_timeout_amended freshSession 9 "QUJD" "QUJD" "hi"
      (by decide) (by decide) (by decide) (by decide) (by decide) (by decide)).1⟩

/-- Claim C6, counterexample: with an invalid model name (and the network
always willing), `create_gemini_session` still runs all three attempts
and sleeps twice (base delays 1 s then 2 s) before raising the aggregated
error — the precondition failure is raised inside the `try`, caught by
the generic `except`, and retried like any other error — contradicting
"not retried, no backoff sleep occurs, no further attempts". -/
theorem c6_counterexample :
    create_gemini_session "bad-model" (fun _ => true) =
      (Except.error "Failed to create Gemini Live session after retries", 3, [1, 2]) ∧
    (create_gemini_session "bad-model" (fun _ => true)).2.1 ≠ 1 ∧
    (create_gemini_session "bad-model" (fun _ => true)).2.2 ≠ [] := by
  refine ⟨rfl, by decide, ?_⟩
  intro h
  simp [create_gemini_session, cgsAttempts, MAX_RETRIES, validate_model_name,
    RETRY_DELAY_SECONDS] at h

/-- Claim C6 (amended): a configured model name failing
`validate_model_name` makes every attempt fail: `create_gemini_session`
performs all `MAX_RETRIES` attempts, sleeping the exponential base delays
between them, and then fails with the aggregated error — it does NOT fail
immediately on the first attempt. -/
theorem c6_retry_amended (name : String) (connectOk : Nat → Bool)
    (hv : validate_model_name name = false) :
    create_gemini_session name connectOk =
      (Except.error "Failed to create Gemini Live session after retries",
       MAX_RETRIES,
       [RETRY_DELAY_SECONDS, RETRY_DELAY_SECONDS * RETRY_BACKOFF_MULTIPLIER]) := by
  have hr : ((List.range MAX_RETRIES).map fun a => a + 1) = [1, 2, 3] := rfl
  unfold create_gemini_session
  rw [hr]
  simp [cgsAttempts, hv, RETRY_DELAY_SECONDS, RETRY_BACKOFF_MULTIPLIER, MAX_RETRIES]

/-- Claim C6 witness: the amended theorem applied to a concrete
non-allow-listed model name. -/
theorem c6_amended_witness :
    validate_model_name "bad-model" = false ∧
    create_gemini_session "bad-model" (fun _ => false) =
      (Except.error "Failed to create Gemini Live session after retries",
       MAX_RETRIES,
       [RETRY_DELAY_SECONDS, RETRY_DELAY_SECONDS * RETRY_BACKOFF_MULTIPLIER]) :=
  ⟨by decide, c6_retry_amended "bad-model" (fun _ => false) (by decide)⟩

/-- Claim C7: `create_session` (with a valid identifier) keeps the
registry within `MAX_SESSIONS`; called at capacity it evicts exactly one
entry — one attaining the least-recent `last_activity` (it is a lower
bound of all entries and is attained) — before inserting the new
session. -/
theorem c7_capacity_eviction (r : Registry) (id : String) (fresh : SessionState)
    (hv : validate_session_id id = true) (hcap : r.length ≤ MAX_SESSIONS) :
    (create_session r id fresh).1.length ≤ MAX_SESSIONS ∧
    (r.length = MAX_SESSIONS →
      ∃ m, minActivity r = some m ∧
        (∀ e ∈ r, m ≤ e.2.last_activity) ∧
        (∃ e ∈ r, e.2.last_activity = m) ∧
        List.Sublist (evictOldest r) r ∧
        (evictOldest r).length + 1 = MAX_SESSIONS ∧
        (create_session r id fresh).1 = regInsert (evictOldest r) id fresh) := by
  have hcs : create_session r id fresh =
      (regInsert (if MAX_SESSIONS ≤ r.length then evictOldest r else r) id fresh,
       Except.ok fresh) := by
    simp [create_session, hv]
  by_cases hfull : MAX_SESSIONS ≤ r.length
  · have hlen : r.length = MAX_SESSIONS := le_antisymm hcap hfull
    have hne : r ≠ [] := by
      intro h0
      rw [h0] at hlen
      simp [MAX_SESSIONS] at hlen
    obtain ⟨m, hm⟩ := minActivity_isSome r hne
    have hmem := minActivity_mem r m hm
    have hle := minActivity_le r m hm
    have hev : evictOldest r = eraseFirstWithActivity r m := by
      simp [evictOldest, hm]
    have h2 : (evictOldest r).length + 1 = r.length := by
      rw [hev]
      exact eraseFirstWithActivity_length r m hmem
    constructor
    · rw [hcs]
      simp only [if_pos hfull]
      have hb := regInsert_length_le (evictOldest r) id fresh
      omega
    · intro _
      refine ⟨m, hm, hle, hmem, ?_, by omega, ?_⟩
      · rw [hev]
        exact eraseFirstWithActivity_sublist r m
      · rw [hcs]
        simp [if_pos hfull]
  · constructor
    · rw [hcs]
      simp only [if_neg hfull]
      have hb := regInsert_length_le r id fresh
      omega
    · intro hlen
      exact absurd (le_of_eq hlen.symm) hfull

/-- Claim C7 witness: a registry of exactly `MAX_SESSIONS` entries with a
fresh valid UUID-v4 identifier; the bound of the theorem applies. -/
theorem c7_witness :
    validate_session_id uuidGood = true ∧
    fullRegistry.length = MAX_SESSIONS ∧
    (create_session fullRegistry uuidGood freshSession).1.length ≤ MAX_SESSIONS :=
  ⟨by decide, by simp [fullRegistry],
   (c7_capacity_eviction fullRegistry uuidGood freshSession (by decide)
      (by simp [fullRegistry])).1⟩

/-- Claim C8, counterexample: a UUID-v4 string followed by one newline
does not match the UUID-v4 pattern, yet `validate_session_id` accepts it
(Python's `$` matches just before a trailing newline) and `create_session`
succeeds and stores it — contradicting "for every string that does not
match the UUID-v4 pattern, create_session fails". -/
theorem c8_counterexample :
    matchesUUIDv4Pattern uuidTrailingNl = false ∧
    validate_session_id uuidTrailingNl = true ∧
    (create_session [] uuidTrailingNl freshSession).2 = Except.ok freshSession ∧
    regGet (create_session [] uuidTrailingNl freshSession).1 uuidTrailingNl =
      some freshSession := by
  refine ⟨by decide, by decide, rfl, rfl⟩

/-- Claim C8 (amended): `create_session` accepts exactly the strings
passing `validate_session_id` — the UUID-v4 pattern optionally followed
by one trailing newline, per Python's `$` semantics.  Rejected strings
fail with the invalid-identifier error and leave the registry completely
unchanged; accepted strings are inserted and retrievable by that
identifier, and (with unique keys) no longer retrievable once removed. -/
theorem c8_validation_amended (r : Registry) (id : String) (fresh : SessionState) :
    (validate_session_id id = false →
      create_session r id fresh = (r, Except.error "Invalid session ID format")) ∧
    (validate_session_id id = true →
      (create_session r id fresh).2 = Except.ok fresh ∧
      regGet (create_session r id fresh).1 id = some fresh) ∧
    ((r.map Prod.fst).Nodup →
      regGet (remove_session (create_session r id fresh).1 id) id = none) := by
  refine ⟨?_, ?_, ?_⟩
  · intro hv
    simp [create_session, hv]
  · intro hv
    constructor
    · simp [create_session, hv]
    · simp [create_session, hv, regGet_regInsert_self]
  · intro hnd
    by_cases hv : validate_session_id id
    · have hnd1 : ((if MAX_SESSIONS ≤ r.length then evictOldest r
          else r).map Prod.fst).Nodup := by
        by_cases hfull : MAX_SESSIONS ≤ r.length
        · rw [if_pos hfull]
          cases hm : minActivity r with
          | none => simpa [evictOldest, hm] using hnd
          | some m =>
            have hev : evictOldest r = eraseFirstWithActivity r m := by
              simp [evictOldest, hm]
            rw [hev]
            exact List.Nodup.sublist
              (List.Sublist.map Prod.fst (eraseFirstWithActivity_sublist r m)) hnd
        · rw [if_neg hfull]
          exact hnd
      have hcs : create_session r id fresh =
          (regInsert (if MAX_SESSIONS ≤ r.length then evictOldest r else r) id fresh,
           Except.ok fresh) := by
        simp [create_session, hv]
      rw [hcs]
      exact regGet_remove_session _ id (regInsert_keys_nodup _ id fresh hnd1)
    · have hcs : create_session r id fresh =
          (r, Except.error "Invalid session ID format") := by
        simp [create_session, hv]
      rw [hcs]
      exact regGet_remove_session r id hnd

/-- Claim C8 witness: the amended theorem applied to a canonical UUID-v4
string inserted into the empty registry. -/
theorem c8_amended_witness :
    validate_session_id uuidGood = true ∧
    regGet (create_session [] uuidGood freshSession).1 uuidGood = some freshSession :=
  ⟨by decide, ((c8_validation_amended [] uuidGood freshSession).2.1 (by decide)).2⟩

/-- Claim C9: an audio payload whose decoded-size estimate
(`len(b64) * 3 // 4`) exceeds `MAX_AUDIO_SIZE_BYTES` yields exactly one
`size_limit_exceeded` error to the client and no upstream send; only the
lane's bookkeeping (activity timestamp, message counter) changes. -/
theorem c9_oversized_audio (s : SessionState) (now : Nat) (b64 : String) (tmo : Bool)
    (hbig : b64.length * 3 / 4 > MAX_AUDIO_SIZE_BYTES) :
    client_message_step s now (audioFrame b64) tmo =
      (touchCount s now,
       [ClientMsg.errorMsg "Audio data too large" "size_limit_exceeded"], []) := by
  have hne : ¬ b64 = "" := by
    intro h
    subst h
    exact absurd hbig (by decide)
  have hbody : client_message_step s now (audioFrame b64) tmo =
      (if b64 = "" then (touchCount s now, [], [])
       else if b64.length * 3 / 4 > MAX_AUDIO_SIZE_BYTES then
        (touchCount s now,
         [ClientMsg.errorMsg "Audio data too large" "size_limit_exceeded"], [])
       else if tmo then
        ((if (touchCount s now).client_interrupted
          then { touchCount s now with client_interrupted := false }
          else touchCount s now),
         [ClientMsg.errorMsg "Request timeout" "timeout"], [])
       else
        ((if (touchCount s now).client_interrupted
          then { touchCount s now with client_interrupted := false }
          else touchCount s now),
         [], [UpSend.realtimeAudio b64 "audio/pcm" true])) := rfl
  rw [hbody, if_neg hne, if_pos hbig]

/-- Claim C9 witness: a concrete ~13.3M-character base64 payload whose
estimated decoded size (10485761 bytes) exceeds the 10 MiB cap. -/
theorem c9_witness :
    oversizedAudioB64.length * 3 / 4 > MAX_AUDIO_SIZE_BYTES ∧
    client_message_step freshSession 2 (audioFrame oversizedAudioB64) false =
      (touchCount freshSession 2,
       [ClientMsg.errorMsg "Audio data too large" "size_limit_exceeded"], []) := by
  have hlen : oversizedAudioB64.length = 13981015 := by
    have h1 : oversizedAudioB64.length = (List.replicate 13981015 'a').length := rfl
    rw [h1, List.length_replicate]
  have hbig : oversizedAudioB64.length * 3 / 4 > MAX_AUDIO_SIZE_BYTES := by
    rw [hlen]
    decide
  exact ⟨hbig, c9_oversized_audio freshSession 2 oversizedAudioB64 false hbig⟩

/-- Claim C10: an `audio`, `image` or `text` frame whose `data` field is
the empty string is silently dropped by its handler (`if not data:
return`): no upstream send, no client message, and only the activity
timestamp and message counter change — in particular the audio handler
returns before its interrupt-flag reset. -/
theorem c10_empty_payload (s : SessionState) (now : Nat) (ty : String) (tmo : Bool)
    (hty : ty = "audio" ∨ ty = "image" ∨ ty = "text") :
    client_message_step s now
        (Inbound.parsed (JVal.jobj [("type", JVal.jstr ty), ("data", JVal.jstr "")]))
        tmo =
      (touchCount s now, [], []) := by
  rcases hty with h | h | h <;> subst h <;> rfl

/-- Claim C10 witness: the theorem applied to a concrete empty audio
frame. -/
theorem c10_witness :
    (("audio" : String) = "audio" ∨ ("audio" : String) = "image" ∨
      ("audio" : String) = "text") ∧
    client_message_step freshSession 7
        (Inbound.parsed
          (JVal.jobj [("type", JVal.jstr "audio"), ("data", JVal.jstr "")])) false =
      (touchCount freshSession 7, [], []) :=
  ⟨Or.inl rfl, c10_empty_payload freshSession 7 "audio" false (Or.inl rfl)⟩
